import Mathlib

/-!
Verification of the AdSpendWise backend (`backend/server.py`) against its
natural-language specification.

Modelling conventions (shallow embedding):
* Python `int` fields become `Int`; Python `float` currency amounts and all
  derived KPIs become `ℚ` (exact rational arithmetic; binary floating-point
  rounding is not modelled, and none of the verified properties depends on it).
* The MongoDB collections `campaigns` and `analyses` become Lean lists in
  insertion order; `insert_one` is list append and `find_one({"id": x})` is
  the first list element with that id.  The store is threaded explicitly.
* External collaborators that the spec itself declares black boxes (the HTTP
  framework, the LLM client, `json.loads`, the pandas CSV reader) are
  modelled by their outcomes: the AI call either fails, returns a reply that
  is not valid JSON, or returns a parsed JSON value (`JVal`); the CSV reader
  yields an already-parsed `DataFrame` of `Cell`s.
* Nondeterministic freshness (uuid4 ids, `datetime.now`) is passed in as
  explicit parameters (`fid`, `now`, `fids`).
-/

namespace AdSpendWise

/-- Python `int()` applied to a rational: truncation toward zero (floor for
non-negative arguments, ceiling for negative ones). -/
def pyInt (q : ℚ) : Int := if 0 ≤ q then ⌊q⌋ else ⌈q⌉

/-- Round half to even (banker's rounding), the rounding used by Python's
`round` and by `format(x, '.1f')` on exactly representable halves. -/
def rhe (q : ℚ) : Int :=
  if q - (⌊q⌋ : ℚ) < 1 / 2 then ⌊q⌋
  else if 1 / 2 < q - (⌊q⌋ : ℚ) then ⌊q⌋ + 1
  else if (⌊q⌋).emod 2 = 0 then ⌊q⌋ else ⌊q⌋ + 1

/-- Rendering of a rational with one decimal digit, the model of the Python
format spec `:.1f` used in the fallback narratives. -/
def formatQ1 (q : ℚ) : String :=
  let n := rhe (q * 10)
  (if n < 0 then ("-") else ("")) ++ toString (n.natAbs / 10) ++ (".") ++ toString (n.natAbs % 10)

/-- Stored campaign record, the `CampaignData` pydantic model of the source
(id and creation timestamp are generated at construction time, here passed
in explicitly). -/
structure CampaignData where
  id : String
  campaign_name : String
  platform : String
  impressions : Int
  clicks : Int
  conversions : Int
  spend : ℚ
  revenue : ℚ
  target_audience : String
  ad_copy : String
  keywords : Option String
  created_at : Int
deriving DecidableEq

/-- Request body for single-campaign creation, the `CampaignCreate` pydantic
model of the source (no id, no timestamp). -/
structure CampaignCreate where
  campaign_name : String
  platform : String
  impressions : Int
  clicks : Int
  conversions : Int
  spend : ℚ
  revenue : ℚ
  target_audience : String
  ad_copy : String
  keywords : Option String
deriving DecidableEq

/-- Stored analysis record, the `AIAnalysis` pydantic model of the source. -/
structure AIAnalysis where
  id : String
  campaign_id : String
  performance_analysis : String
  budget_recommendations : String
  targeting_suggestions : String
  copy_optimization : String
  roi_strategies : String
  overall_score : Int
  created_at : Int
deriving DecidableEq

/-- A FastAPI `HTTPException` value: status code plus string detail. -/
structure HTTPException where
  status_code : Nat
  detail : String
deriving DecidableEq

/-- The `str()` rendering of a starlette `HTTPException`,
`f"\x7bstatus_code\x7d: \x7bdetail\x7d"`; it appears when the bulk-upload
handler's blanket `except` re-wraps the missing-columns exception. -/
def httpExcStr (e : HTTPException) : String :=
  toString e.status_code ++ (": ") ++ e.detail

/-- CTR as computed at line 154 of the source:
`clicks / impressions * 100 if impressions > 0 else 0`. -/
def ctr (c : CampaignData) : ℚ :=
  if 0 < c.impressions then (c.clicks : ℚ) / (c.impressions : ℚ) * 100 else 0

/-- Conversion rate as computed at line 155 of the source:
`conversions / clicks * 100 if clicks > 0 else 0`. -/
def conversion_rate (c : CampaignData) : ℚ :=
  if 0 < c.clicks then (c.conversions : ℚ) / (c.clicks : ℚ) * 100 else 0

/-- CPA as computed at line 156 of the source:
`spend / conversions if conversions > 0 else spend`. -/
def cpa (c : CampaignData) : ℚ :=
  if 0 < c.conversions then c.spend / (c.conversions : ℚ) else c.spend

/-- ROAS as computed at line 157 of the source:
`revenue / spend if spend > 0 else 0`. -/
def roas (c : CampaignData) : ℚ :=
  if 0 < c.spend then c.revenue / c.spend else 0

/-- ROI as computed at line 158 of the source:
`(revenue - spend) / spend * 100 if spend > 0 else 0`. -/
def roi (c : CampaignData) : ℚ :=
  if 0 < c.spend then (c.revenue - c.spend) / c.spend * 100 else 0

/-- Modelled from the spec's Metrics Calculator contract:
CTR = clicks/impressions × 100, defined as 0 when impressions = 0. -/
def specCTR (impressions clicks : ℚ) : ℚ :=
  if impressions = 0 then 0 else clicks / impressions * 100

/-- Modelled from the spec's Metrics Calculator contract:
conversion rate = conversions/clicks × 100, defined as 0 when clicks = 0. -/
def specConvRate (clicks conversions : ℚ) : ℚ :=
  if clicks = 0 then 0 else conversions / clicks * 100

/-- Modelled from the spec's Metrics Calculator contract:
CPA = spend/conversions when conversions > 0, else spend. -/
def specCPA (conversions spend : ℚ) : ℚ :=
  if 0 < conversions then spend / conversions else spend

/-- Modelled from the spec's Metrics Calculator contract:
ROAS = revenue/spend when spend > 0, else 0. -/
def specROAS (spend revenue : ℚ) : ℚ :=
  if 0 < spend then revenue / spend else 0

/-- Modelled from the spec's Metrics Calculator contract:
ROI = (revenue − spend)/spend × 100 when spend > 0, else 0. -/
def specROI (spend revenue : ℚ) : ℚ :=
  if 0 < spend then (revenue - spend) / spend * 100 else 0

/-- The sample campaign of the spec's testable-properties section:
spend 5000, revenue 12500, impressions 100000, clicks 5000, conversions 250. -/
def sampleCampaign : CampaignData :=
  { id := "c1", campaign_name := "Sample", platform := "Google Ads",
    impressions := 100000, clicks := 5000, conversions := 250,
    spend := 5000, revenue := 12500,
    target_audience := "startup founders", ad_copy := "Try it now", keywords := none,
    created_at := 0 }

/-- C1: for every campaign with non-negative numeric fields, the analyze
operation's derived KPIs equal the spec's Metrics Calculator contract: CTR
(0 when impressions = 0), conversion rate (0 when clicks = 0), CPA (spend
when conversions = 0), ROAS and ROI (0 when spend = 0).  All five metric
functions are total, so no division-by-zero error is possible; the
degenerate cases are stated explicitly as well. -/
theorem metrics_match_spec (c : CampaignData)
    (h1 : 0 ≤ c.impressions) (h2 : 0 ≤ c.clicks) (_h3 : 0 ≤ c.conversions)
    (_h4 : 0 ≤ c.spend) :
    ctr c = specCTR (c.impressions : ℚ) (c.clicks : ℚ) ∧
    conversion_rate c = specConvRate (c.clicks : ℚ) (c.conversions : ℚ) ∧
    cpa c = specCPA (c.conversions : ℚ) c.spend ∧
    roas c = specROAS c.spend c.revenue ∧
    roi c = specROI c.spend c.revenue ∧
    (c.impressions = 0 → ctr c = 0) ∧
    (c.clicks = 0 → conversion_rate c = 0) ∧
    (c.conversions = 0 → cpa c = c.spend) ∧
    (c.spend = 0 → roas c = 0 ∧ roi c = 0) := by
  have himp : (0 < c.impressions) ↔ ¬ ((c.impressions : ℚ) = 0) := by
    rw [Int.cast_eq_zero]
    exact ⟨fun h hh => by omega, fun h => lt_of_le_of_ne h1 (Ne.symm h)⟩
  have hclk : (0 < c.clicks) ↔ ¬ ((c.clicks : ℚ) = 0) := by
    rw [Int.cast_eq_zero]
    exact ⟨fun h hh => by omega, fun h => lt_of_le_of_ne h2 (Ne.symm h)⟩
  have hconv : (0 < c.conversions) ↔ (0 < (c.conversions : ℚ)) := by
    exact_mod_cast Iff.rfl
  refine ⟨?_, ?_, ?_, rfl, rfl, ?_, ?_, ?_, ?_⟩
  · unfold ctr specCTR
    by_cases h : 0 < c.impressions
    · rw [if_pos h, if_neg (himp.mp h)]
    · rw [if_neg h, if_pos (by by_contra hh; exact h (himp.mpr hh))]
  · unfold conversion_rate specConvRate
    by_cases h : 0 < c.clicks
    · rw [if_pos h, if_neg (hclk.mp h)]
    · rw [if_neg h, if_pos (by by_contra hh; exact h (hclk.mpr hh))]
  · unfold cpa specCPA
    by_cases h : 0 < c.conversions
    · rw [if_pos h, if_pos (hconv.mp h)]
    · rw [if_neg h, if_neg (fun hh => h (hconv.mpr hh))]
  · intro h0
    unfold ctr
    rw [if_neg (by omega)]
  · intro h0
    unfold conversion_rate
    rw [if_neg (by omega)]
  · intro h0
    unfold cpa
    rw [if_neg (by omega)]
  · intro h0
    unfold roas roi
    rw [h0]
    exact ⟨if_neg (lt_irrefl 0), if_neg (lt_irrefl 0)⟩

/-- C1 witness: the theorem instantiated at the spec's sample campaign, whose
KPIs evaluate to CTR 5, conversion rate 5, CPA 20, ROAS 5/2, ROI 150. -/
theorem metrics_match_spec_witness :
    ((0 ≤ sampleCampaign.impressions ∧ 0 ≤ sampleCampaign.clicks ∧
      0 ≤ sampleCampaign.conversions ∧ 0 ≤ sampleCampaign.spend) ∧
     ctr sampleCampaign = specCTR (sampleCampaign.impressions : ℚ) (sampleCampaign.clicks : ℚ)) ∧
    ctr sampleCampaign = 5 ∧ conversion_rate sampleCampaign = 5 ∧
    cpa sampleCampaign = 20 ∧ roas sampleCampaign = 5 / 2 ∧
    roi sampleCampaign = 150 :=
  ⟨⟨⟨by decide, by decide, by decide, by norm_num [sampleCampaign]⟩,
    (metrics_match_spec sampleCampaign (by decide) (by decide) (by decide)
      (by norm_num [sampleCampaign])).1⟩,
   by norm_num [ctr, sampleCampaign], by norm_num [conversion_rate, sampleCampaign],
   by norm_num [cpa, sampleCampaign], by norm_num [roas, sampleCampaign],
   by norm_num [roi, sampleCampaign]⟩

/-- Digits-only parse of a list of characters (no sign), used to model
Python's `int(str)`. -/
def digitsVal? (cs : List Char) : Option Nat :=
  if cs.isEmpty then none
  else if cs.all Char.isDigit then
    some (cs.foldl (fun a c => a * 10 + (c.toNat - 48)) 0)
  else none

/-- Surrounding-whitespace removal on a character list (the `int()` and
`float()` constructors strip whitespace before parsing). -/
def trimChars (cs : List Char) : List Char :=
  ((cs.dropWhile Char.isWhitespace).reverse.dropWhile Char.isWhitespace).reverse

/-- Python `int(s)` on a string: optional surrounding whitespace, optional
sign, decimal digits; anything else raises `ValueError`.  (Underscore digit
separators are not modelled.) -/
def pyStrToInt? (s : String) : Option Int :=
  match trimChars s.data with
  | [] => none
  | c :: rest =>
    if c = ('-') then (digitsVal? rest).map (fun n => -(n : Int))
    else if c = ('+') then (digitsVal? rest).map (fun n => (n : Int))
    else (digitsVal? (c :: rest)).map (fun n => (n : Int))

/-- Python `float(s)` on a string, restricted to plain decimal notation
(optional sign, digits with at most one decimal point); scientific notation,
`inf` and `nan` are not modelled. -/
def pyStrToFloat? (s : String) : Option ℚ :=
  let core : List Char → Option ℚ := fun cs =>
    match cs.splitOn ('.') with
    | [ip] => (digitsVal? ip).map (fun n => (n : ℚ))
    | [ip, fp] =>
      if ip.isEmpty ∧ fp.isEmpty then none
      else if ip.all Char.isDigit ∧ fp.all Char.isDigit then
        some ((ip.foldl (fun a c => a * 10 + (c.toNat - 48)) 0 : ℚ) +
              (fp.foldl (fun a c => a * 10 + (c.toNat - 48)) 0 : ℚ) / (10 : ℚ) ^ fp.length)
      else none
    | _ => none
  match trimChars s.data with
  | [] => none
  | c :: rest =>
    if c = ('-') then (core rest).map (fun q => -q)
    else if c = ('+') then core rest
    else core (c :: rest)

/-- A parsed JSON value, the possible results of `json.loads` on the AI
reply.  Booleans and non-integer JSON numbers are left out: no verified
property depends on them. -/
inductive JVal where
  | jStr : String → JVal
  | jInt : Int → JVal
  | jObj : List (String × JVal) → JVal
  | jArr : List JVal → JVal
  | jNull : JVal

/-- First binding of a key in a JSON object (Python dicts from `json.loads`
have unique keys, so first = only). -/
def jLookup (fields : List (String × JVal)) (k : String) : Option JVal :=
  (fields.find? (fun p => p.1 == k)).map (fun p => p.2)

/-- Pydantic validation of a `str` field: accepts a JSON string. -/
def coerceStr : JVal → Option String
  | JVal.jStr s => some s
  | _ => none

/-- Pydantic validation of an `int` field: accepts a JSON integer, and
coerces an integer-shaped string the way pydantic does. -/
def coerceInt : JVal → Option Int
  | JVal.jInt n => some n
  | JVal.jStr s => pyStrToInt? s
  | _ => none

/-- The construction `AIAnalysis(campaign_id=campaign_id, **analysis_data)`
of the source, applied to the parsed JSON reply.  `none` models a raised
exception (caught by the handler's outer `except`): the parsed value is not
a mapping (`**` raises `TypeError`), a `campaign_id` key collides with the
explicit keyword argument (`TypeError`), a required field is missing or has
an uncoercible value (pydantic `ValidationError`).  Extra keys are ignored,
pydantic's default.  An `id` key overrides the generated id; a `created_at`
key is modelled for integer timestamps only (ISO datetime strings are not
modelled; no verified property exercises them). -/
def buildAnalysis (campaign_id fid : String) (now : Int) : JVal → Option AIAnalysis
  | JVal.jObj fields =>
    if (jLookup fields ("campaign_id")).isSome then none
    else do
      let pa ← (jLookup fields ("performance_analysis")).bind coerceStr
      let br ← (jLookup fields ("budget_recommendations")).bind coerceStr
      let tg ← (jLookup fields ("targeting_suggestions")).bind coerceStr
      let co ← (jLookup fields ("copy_optimization")).bind coerceStr
      let rs ← (jLookup fields ("roi_strategies")).bind coerceStr
      let sc ← (jLookup fields ("overall_score")).bind coerceInt
      let idv ← match jLookup fields ("id") with
        | none => some fid
        | some v => coerceStr v
      let ca ← match jLookup fields ("created_at") with
        | none => some now
        | some (JVal.jInt n) => some n
        | some _ => none
      some { id := idv, campaign_id := campaign_id, performance_analysis := pa,
             budget_recommendations := br, targeting_suggestions := tg,
             copy_optimization := co, roi_strategies := rs,
             overall_score := sc, created_at := ca }
  | _ => none

/-- Outcome of the external AI round trip plus `json.loads`, both black
boxes per the spec: the call raises, or returns text that is not valid JSON,
or returns text that parses to a JSON value. -/
inductive AIOutcome where
  | failure : AIOutcome
  | replyUnparseable : String → AIOutcome
  | replyJson : JVal → AIOutcome

/-- The score used on both fallback paths of the source,
`min(max(int(roi + 50), 1), 100)`. -/
def fallbackScore (r : ℚ) : Int := min (max (pyInt (r + 50)) 1) 100

/-- Modelled from the spec: the fallback score written as
`clamp(round(ROI) + 50, 1, 100)`, with round-to-nearest (half to even,
Python's `round`).  Stated for comparison with `fallbackScore`. -/
def specRoundScore (r : ℚ) : Int := min (max (rhe r + 50) 1) 100

/-- The fallback `AIAnalysis` built in the handler's `except` branch (AI
call failed), lines 227-235 of the source. -/
def failureFallback (campaign_id : String) (c : CampaignData) (fid : String) (now : Int) :
    AIAnalysis :=
  { id := fid, campaign_id := campaign_id,
    performance_analysis :=
      ("Campaign performance: ") ++ formatQ1 (ctr c) ++ ("% CTR, ") ++
      formatQ1 (conversion_rate c) ++ ("% conversion rate, ") ++ formatQ1 (roi c) ++ ("% ROI"),
    budget_recommendations := "Optimize budget allocation based on performance data",
    targeting_suggestions := "Refine targeting for better audience reach",
    copy_optimization := "Test new ad copy variations",
    roi_strategies := "Focus on high-converting segments",
    overall_score := fallbackScore (roi c),
    created_at := now }

/-- The fallback `AIAnalysis` built when `json.loads` raises
`JSONDecodeError`, lines 203-210 of the source (the dict there always
constructs successfully). -/
def parseFallback (campaign_id : String) (c : CampaignData) (raw : String)
    (fid : String) (now : Int) : AIAnalysis :=
  { id := fid, campaign_id := campaign_id,
    performance_analysis :=
      ("Campaign shows ") ++ formatQ1 (ctr c) ++ ("% CTR and ") ++
      formatQ1 (roi c) ++ ("% ROI. ") ++ raw.take 200,
    budget_recommendations := "Increase budget on high-performing segments based on current data.",
    targeting_suggestions := "Refine audience targeting based on conversion data.",
    copy_optimization := "Test new ad variations with stronger calls-to-action.",
    roi_strategies := "Focus on conversion optimization and cost reduction.",
    overall_score := fallbackScore (roi c),
    created_at := now }

/-- `db.campaigns.find_one({"id": campaign_id})`: first stored campaign with
the given id. -/
def find_one (store : List CampaignData) (cid : String) : Option CampaignData :=
  store.find? (fun c => c.id == cid)

/-- The `analyze_campaign` route handler.  Inputs: the two stores, the path
parameter, the AI/JSON outcome, the fresh analysis id and timestamp.
Output: the HTTP-level result together with the analyses store after the
call. -/
def analyze_campaign (campaigns : List CampaignData) (analyses : List AIAnalysis)
    (campaign_id : String) (ai : AIOutcome) (fid : String) (now : Int) :
    Except HTTPException AIAnalysis × List AIAnalysis :=
  match find_one campaigns campaign_id with
  | none => (Except.error { status_code := 404, detail := "Campaign not found" }, analyses)
  | some c =>
    match ai with
    | AIOutcome.failure =>
      let a := failureFallback campaign_id c fid now
      (Except.ok a, analyses ++ [a])
    | AIOutcome.replyUnparseable raw =>
      let a := parseFallback campaign_id c raw fid now
      (Except.ok a, analyses ++ [a])
    | AIOutcome.replyJson v =>
      match buildAnalysis campaign_id fid now v with
      | some a => (Except.ok a, analyses ++ [a])
      | none =>
        let a := failureFallback campaign_id c fid now
        (Except.ok a, analyses ++ [a])

/-- C2: for every existing campaign, when the external AI call raises,
`analyze_campaign` does not fail: it returns the deterministic fallback
analysis (narrative embedding CTR, conversion rate and ROI, score from the
fallback formula) and appends exactly that record to the analyses store. -/
theorem analyze_ai_failure_persists_fallback
    (campaigns : List CampaignData) (analyses : List AIAnalysis)
    (cid fid : String) (now : Int) (c : CampaignData)
    (h : find_one campaigns cid = some c) :
    ∃ a : AIAnalysis,
      analyze_campaign campaigns analyses cid AIOutcome.failure fid now =
        (Except.ok a, analyses ++ [a]) ∧
      a.campaign_id = cid ∧
      a.overall_score = fallbackScore (roi c) ∧
      a.performance_analysis =
        ("Campaign performance: ") ++ formatQ1 (ctr c) ++ ("% CTR, ") ++
        formatQ1 (conversion_rate c) ++ ("% conversion rate, ") ++
        formatQ1 (roi c) ++ ("% ROI") := by
  refine ⟨failureFallback cid c fid now, ?_, rfl, rfl, rfl⟩
  unfold analyze_campaign
  rw [h]

/-- C2 witness: the AI-failure path evaluated on the sample campaign. -/
theorem analyze_ai_failure_persists_fallback_witness :
    find_one [sampleCampaign] ("c1") = some sampleCampaign ∧
    ∃ a : AIAnalysis,
      analyze_campaign [sampleCampaign] [] ("c1") AIOutcome.failure ("a1") 0 =
        (Except.ok a, [] ++ [a]) ∧
      a.campaign_id = ("c1") ∧
      a.overall_score = fallbackScore (roi sampleCampaign) ∧
      a.performance_analysis =
        ("Campaign performance: ") ++ formatQ1 (ctr sampleCampaign) ++ ("% CTR, ") ++
        formatQ1 (conversion_rate sampleCampaign) ++ ("% conversion rate, ") ++
        formatQ1 (roi sampleCampaign) ++ ("% ROI") :=
  ⟨rfl, analyze_ai_failure_persists_fallback [sampleCampaign] [] ("c1") ("a1") 0
    sampleCampaign rfl⟩

/-- C5: for a campaign id absent from the campaign store, `analyze_campaign`
fails with a 404 error whatever the AI outcome, and the analyses store is
returned unchanged: no analysis record is created. -/
theorem analyze_notfound_no_record
    (campaigns : List CampaignData) (analyses : List AIAnalysis)
    (cid fid : String) (now : Int) (ai : AIOutcome)
    (h : find_one campaigns cid = none) :
    analyze_campaign campaigns analyses cid ai fid now =
      (Except.error { status_code := 404, detail := ("Campaign not found") }, analyses) := by
  unfold analyze_campaign
  rw [h]

/-- C5 witness: analyzing an id that is not in the store. -/
theorem analyze_notfound_no_record_witness :
    find_one [sampleCampaign] ("nope") = none ∧
    analyze_campaign [sampleCampaign] [] ("nope") AIOutcome.failure ("a1") 0 =
      (Except.error { status_code := 404, detail := ("Campaign not found") }, []) :=
  ⟨rfl, analyze_notfound_no_record [sampleCampaign] [] ("nope") ("a1") 0 AIOutcome.failure rfl⟩

/-- Evaluation helper: `pyInt` at a non-negative rational bracketed by an
integer. -/
theorem pyInt_ofNonneg (q : ℚ) (n : Int) (h0 : 0 ≤ q) (h1 : (n : ℚ) ≤ q)
    (h2 : q < n + 1) : pyInt q = n := by
  unfold pyInt
  rw [if_pos h0, Int.floor_eq_iff]
  exact ⟨h1, h2⟩

/-- Evaluation helper: `pyInt` at a negative rational bracketed by an
integer. -/
theorem pyInt_ofNeg (q : ℚ) (n : Int) (h0 : ¬ 0 ≤ q) (h1 : (n : ℚ) - 1 < q)
    (h2 : q ≤ n) : pyInt q = n := by
  unfold pyInt
  rw [if_neg h0, Int.ceil_eq_iff]
  exact ⟨h1, h2⟩

/-- A campaign whose ROI is 7/10, where truncation and rounding of the
fallback score disagree: spend 1000, revenue 1007. -/
def cRound : CampaignData :=
  { id := "cr", campaign_name := "Rounding", platform := "Facebook",
    impressions := 100, clicks := 10, conversions := 1,
    spend := 1000, revenue := 1007,
    target_audience := "a", ad_copy := "b", keywords := none,
    created_at := 0 }

/-- C3 counterexample: the fallback score is not `clamp(round(ROI)+50,1,100)`.
At ROI = 7/10 (spend 1000, revenue 1007) the code stores
`min(max(int(0.7 + 50), 1), 100) = 50`, while the claimed formula gives
`clamp(round(0.7) + 50, 1, 100) = 51`. -/
theorem fallback_score_round_counterexample :
    roi cRound = 7 / 10 ∧
    (analyze_campaign [cRound] [] ("cr") AIOutcome.failure ("a1") 0).1 =
      Except.ok (failureFallback ("cr") cRound ("a1") 0) ∧
    (failureFallback ("cr") cRound ("a1") 0).overall_score = 50 ∧
    specRoundScore (roi cRound) = 51 := by
  have hroi : roi cRound = 7 / 10 := by norm_num [roi, cRound]
  refine ⟨hroi, rfl, ?_, ?_⟩
  · show fallbackScore (roi cRound) = 50
    rw [hroi]
    unfold fallbackScore
    rw [pyInt_ofNonneg (7 / 10 + 50) 50 (by norm_num) (by norm_num) (by norm_num)]
    decide
  · rw [hroi]
    unfold specRoundScore rhe
    have hf : (⌊(7 : ℚ) / 10⌋ : Int) = 0 := by
      rw [Int.floor_eq_iff]
      norm_num
    rw [hf]
    rw [if_neg (by norm_num), if_pos (by norm_num)]
    decide

/-- C3 as amended: on both fallback paths the stored overall score equals
`min(max(int(ROI + 50), 1), 100)` where `int` truncates toward zero (that is
what Python's `int()` does; the spec's `round(ROI) + 50` disagrees with it
for fractional ROI).  The three instances of the claim do hold:
ROI = 1000 gives 100, ROI = -1000 gives 1, ROI = 0 gives 50. -/
theorem fallback_score_truncation
    (campaigns : List CampaignData) (analyses : List AIAnalysis)
    (cid fid raw : String) (now : Int) (c : CampaignData)
    (h : find_one campaigns cid = some c) :
    (∃ a : AIAnalysis,
      analyze_campaign campaigns analyses cid AIOutcome.failure fid now =
        (Except.ok a, analyses ++ [a]) ∧
      a.overall_score = min (max (pyInt (roi c + 50)) 1) 100) ∧
    (∃ a : AIAnalysis,
      analyze_campaign campaigns analyses cid (AIOutcome.replyUnparseable raw) fid now =
        (Except.ok a, analyses ++ [a]) ∧
      a.overall_score = min (max (pyInt (roi c + 50)) 1) 100) ∧
    fallbackScore 1000 = 100 ∧ fallbackScore (-1000) = 1 ∧ fallbackScore 0 = 50 := by
  refine ⟨⟨failureFallback cid c fid now, ?_, rfl⟩,
          ⟨parseFallback cid c raw fid now, ?_, rfl⟩, ?_, ?_, ?_⟩
  · unfold analyze_campaign
    rw [h]
  · unfold analyze_campaign
    rw [h]
  · unfold fallbackScore
    rw [pyInt_ofNonneg (1000 + 50) 1050 (by norm_num) (by norm_num) (by norm_num)]
    decide
  · unfold fallbackScore
    rw [pyInt_ofNeg ((-1000 : ℚ) + 50) (-950) (by norm_num) (by norm_num) (by norm_num)]
    decide
  · unfold fallbackScore
    rw [pyInt_ofNonneg ((0 : ℚ) + 50) 50 (by norm_num) (by norm_num) (by norm_num)]
    decide

/-- C3 witness (amended claim): both fallback paths on the sample campaign. -/
theorem fallback_score_truncation_witness :
    find_one [sampleCampaign] ("c1") = some sampleCampaign ∧
    ((∃ a : AIAnalysis,
      analyze_campaign [sampleCampaign] [] ("c1") AIOutcome.failure ("a1") 0 =
        (Except.ok a, [] ++ [a]) ∧
      a.overall_score = min (max (pyInt (roi sampleCampaign + 50)) 1) 100) ∧
    (∃ a : AIAnalysis,
      analyze_campaign [sampleCampaign] [] ("c1") (AIOutcome.replyUnparseable ("oops")) ("a1") 0 =
        (Except.ok a, [] ++ [a]) ∧
      a.overall_score = min (max (pyInt (roi sampleCampaign + 50)) 1) 100) ∧
    fallbackScore 1000 = 100 ∧ fallbackScore (-1000) = 1 ∧ fallbackScore 0 = 50) :=
  ⟨rfl, fallback_score_truncation [sampleCampaign] [] ("c1") ("a1") ("oops") 0
    sampleCampaign rfl⟩

/-- C4: when the parsed AI reply carries the five narrative fields as JSON
strings and an integer score, and no colliding or overriding keys, the
handler adopts all six values verbatim into the stored analysis; in
particular the score is not clamped to [1,100] (it is adopted for every
integer `sc`), and the record is appended to the analyses store. -/
theorem success_path_verbatim
    (campaigns : List CampaignData) (analyses : List AIAnalysis)
    (cid fid : String) (now : Int) (c : CampaignData)
    (fields : List (String × JVal)) (pa br tg co rs : String) (sc : Int)
    (h : find_one campaigns cid = some c)
    (h1 : jLookup fields ("performance_analysis") = some (JVal.jStr pa))
    (h2 : jLookup fields ("budget_recommendations") = some (JVal.jStr br))
    (h3 : jLookup fields ("targeting_suggestions") = some (JVal.jStr tg))
    (h4 : jLookup fields ("copy_optimization") = some (JVal.jStr co))
    (h5 : jLookup fields ("roi_strategies") = some (JVal.jStr rs))
    (h6 : jLookup fields ("overall_score") = some (JVal.jInt sc))
    (h7 : jLookup fields ("campaign_id") = none)
    (h8 : jLookup fields ("id") = none)
    (h9 : jLookup fields ("created_at") = none) :
    analyze_campaign campaigns analyses cid (AIOutcome.replyJson (JVal.jObj fields)) fid now =
      (Except.ok { id := fid, campaign_id := cid, performance_analysis := pa,
                   budget_recommendations := br, targeting_suggestions := tg,
                   copy_optimization := co, roi_strategies := rs,
                   overall_score := sc, created_at := now },
       analyses ++ [{ id := fid, campaign_id := cid, performance_analysis := pa,
                      budget_recommendations := br, targeting_suggestions := tg,
                      copy_optimization := co, roi_strategies := rs,
                      overall_score := sc, created_at := now }]) := by
  have hb : buildAnalysis cid fid now (JVal.jObj fields) =
      some { id := fid, campaign_id := cid, performance_analysis := pa,
             budget_recommendations := br, targeting_suggestions := tg,
             copy_optimization := co, roi_strategies := rs,
             overall_score := sc, created_at := now } := by
    simp [buildAnalysis, h1, h2, h3, h4, h5, h6, h7, h8, h9, coerceStr, coerceInt]
  simp only [analyze_campaign, h, hb]

/-- C4 witness: a well-shaped reply with the out-of-range score 1000 is
stored with score 1000. -/
theorem success_path_verbatim_witness :
    (find_one [sampleCampaign] ("c1") = some sampleCampaign ∧
     jLookup [(("performance_analysis"), JVal.jStr ("P")),
              (("budget_recommendations"), JVal.jStr ("B")),
              (("targeting_suggestions"), JVal.jStr ("T")),
              (("copy_optimization"), JVal.jStr ("C")),
              (("roi_strategies"), JVal.jStr ("R")),
              (("overall_score"), JVal.jInt 1000)] ("performance_analysis") =
       some (JVal.jStr ("P"))) ∧
    analyze_campaign [sampleCampaign] [] ("c1")
      (AIOutcome.replyJson (JVal.jObj
        [(("performance_analysis"), JVal.jStr ("P")),
         (("budget_recommendations"), JVal.jStr ("B")),
         (("targeting_suggestions"), JVal.jStr ("T")),
         (("copy_optimization"), JVal.jStr ("C")),
         (("roi_strategies"), JVal.jStr ("R")),
         (("overall_score"), JVal.jInt 1000)])) ("a1") 0 =
      (Except.ok { id := ("a1"), campaign_id := ("c1"), performance_analysis := ("P"),
                   budget_recommendations := ("B"), targeting_suggestions := ("T"),
                   copy_optimization := ("C"), roi_strategies := ("R"),
                   overall_score := 1000, created_at := 0 },
       [] ++ [{ id := ("a1"), campaign_id := ("c1"), performance_analysis := ("P"),
                budget_recommendations := ("B"), targeting_suggestions := ("T"),
                copy_optimization := ("C"), roi_strategies := ("R"),
                overall_score := 1000, created_at := 0 }]) :=
  ⟨⟨rfl, rfl⟩,
   success_path_verbatim [sampleCampaign] [] ("c1") ("a1") 0 sampleCampaign
     [(("performance_analysis"), JVal.jStr ("P")),
      (("budget_recommendations"), JVal.jStr ("B")),
      (("targeting_suggestions"), JVal.jStr ("T")),
      (("copy_optimization"), JVal.jStr ("C")),
      (("roi_strategies"), JVal.jStr ("R")),
      (("overall_score"), JVal.jInt 1000)]
     ("P") ("B") ("T") ("C") ("R") 1000
     rfl rfl rfl rfl rfl rfl rfl rfl rfl rfl⟩

/-- A well-shaped reply carrying one extra key besides the six expected
fields. -/
def vExtra : JVal :=
  JVal.jObj
    [(("performance_analysis"), JVal.jStr ("P")),
     (("budget_recommendations"), JVal.jStr ("B")),
     (("targeting_suggestions"), JVal.jStr ("T")),
     (("copy_optimization"), JVal.jStr ("C")),
     (("roi_strategies"), JVal.jStr ("R")),
     (("overall_score"), JVal.jInt 7),
     (("extra_key"), JVal.jStr ("ignored"))]

/-- C9 counterexample: a valid JSON object with an extra key other than
`campaign_id` does not trigger the fallback.  Pydantic ignores unknown
keyword arguments, so the parsed fields are adopted (score 7 here), whereas
the claim requires the AI-failure fallback (which at the sample campaign
would have score 100 and the fixed narrative). -/
theorem extra_key_reply_not_fallback :
    (analyze_campaign [sampleCampaign] [] ("c1") (AIOutcome.replyJson vExtra) ("a1") 0).1 =
      Except.ok { id := ("a1"), campaign_id := ("c1"), performance_analysis := ("P"),
                  budget_recommendations := ("B"), targeting_suggestions := ("T"),
                  copy_optimization := ("C"), roi_strategies := ("R"),
                  overall_score := 7, created_at := 0 } ∧
    (failureFallback ("c1") sampleCampaign ("a1") 0).overall_score = 100 ∧
    (failureFallback ("c1") sampleCampaign ("a1") 0).budget_recommendations ≠ ("B") := by
  refine ⟨rfl, ?_, by decide⟩
  show fallbackScore (roi sampleCampaign) = 100
  have hroi : roi sampleCampaign = 150 := by norm_num [roi, sampleCampaign]
  rw [hroi]
  unfold fallbackScore
  rw [pyInt_ofNonneg (150 + 50) 200 (by norm_num) (by norm_num) (by norm_num)]
  decide

/-- C9 as amended: whenever constructing the analysis from the parsed JSON
value raises (the value is not an object, a required field is missing or
uncoercible, or a `campaign_id` key collides with the explicit keyword
argument), the handler stores and returns the AI-failure fallback — the one
with the fixed narrative embedding CTR, conversion rate and ROI — not the
JSON-parse fallback and not the parsed fields.  Extra keys other than
`campaign_id` do not raise and are simply ignored. -/
theorem invalid_reply_shape_failure_fallback
    (campaigns : List CampaignData) (analyses : List AIAnalysis)
    (cid fid : String) (now : Int) (c : CampaignData) (v : JVal)
    (h : find_one campaigns cid = some c)
    (hv : buildAnalysis cid fid now v = none) :
    (∃ a : AIAnalysis,
      analyze_campaign campaigns analyses cid (AIOutcome.replyJson v) fid now =
        (Except.ok a, analyses ++ [a]) ∧
      a.budget_recommendations = ("Optimize budget allocation based on performance data") ∧
      a.performance_analysis =
        ("Campaign performance: ") ++ formatQ1 (ctr c) ++ ("% CTR, ") ++
        formatQ1 (conversion_rate c) ++ ("% conversion rate, ") ++
        formatQ1 (roi c) ++ ("% ROI") ∧
      a.overall_score = fallbackScore (roi c)) ∧
    (∀ l, buildAnalysis cid fid now (JVal.jArr l) = none) ∧
    (∀ s, buildAnalysis cid fid now (JVal.jStr s) = none) ∧
    (∀ fields, (jLookup fields ("campaign_id")).isSome →
      buildAnalysis cid fid now (JVal.jObj fields) = none) ∧
    (∀ fields, jLookup fields ("performance_analysis") = none →
      buildAnalysis cid fid now (JVal.jObj fields) = none) := by
  refine ⟨⟨failureFallback cid c fid now, ?_, rfl, rfl, rfl⟩,
          fun l => rfl, fun s => rfl, ?_, ?_⟩
  · simp only [analyze_campaign, h, hv]
  · intro fields hcid
    simp [buildAnalysis, hcid]
  · intro fields hpa
    by_cases hcid : (jLookup fields ("campaign_id")).isSome
    · simp [buildAnalysis, hcid]
    · simp [buildAnalysis, hcid, hpa]

/-- C9 witness (amended claim): a JSON array reply falls back to the
AI-failure analysis on the sample campaign. -/
theorem invalid_reply_shape_failure_fallback_witness :
    (find_one [sampleCampaign] ("c1") = some sampleCampaign ∧
     buildAnalysis ("c1") ("a1") 0 (JVal.jArr []) = none) ∧
    ((∃ a : AIAnalysis,
      analyze_campaign [sampleCampaign] [] ("c1") (AIOutcome.replyJson (JVal.jArr [])) ("a1") 0 =
        (Except.ok a, [] ++ [a]) ∧
      a.budget_recommendations = ("Optimize budget allocation based on performance data") ∧
      a.performance_analysis =
        ("Campaign performance: ") ++ formatQ1 (ctr sampleCampaign) ++ ("% CTR, ") ++
        formatQ1 (conversion_rate sampleCampaign) ++ ("% conversion rate, ") ++
        formatQ1 (roi sampleCampaign) ++ ("% ROI") ∧
      a.overall_score = fallbackScore (roi sampleCampaign)) ∧
    (∀ l, buildAnalysis ("c1") ("a1") 0 (JVal.jArr l) = none) ∧
    (∀ s, buildAnalysis ("c1") ("a1") 0 (JVal.jStr s) = none) ∧
    (∀ fields, (jLookup fields ("campaign_id")).isSome →
      buildAnalysis ("c1") ("a1") 0 (JVal.jObj fields) = none) ∧
    (∀ fields, jLookup fields ("performance_analysis") = none →
      buildAnalysis ("c1") ("a1") 0 (JVal.jObj fields) = none)) :=
  ⟨⟨rfl, rfl⟩,
   invalid_reply_shape_failure_fallback [sampleCampaign] [] ("c1") ("a1") 0
     sampleCampaign (JVal.jArr []) rfl rfl⟩

/-- A single-quote character as a string, used in Python `repr`-style error
messages. -/
def sq : String := String.singleton (Char.ofNat 39)

/-- A cell of the pandas DataFrame produced by `pd.read_csv` (the CSV parser
is a black box per the spec): a string, an inferred integer or float, or a
missing value (NaN).  Non-integer floats carry an exact rational here. -/
inductive Cell where
  | cStr : String → Cell
  | cInt : Int → Cell
  | cFloat : ℚ → Cell
  | cNaN : Cell
deriving DecidableEq

/-- A DataFrame row: column name to cell. -/
abbrev Row := List (String × Cell)

/-- The parsed CSV: header columns plus data rows. -/
structure DataFrame where
  columns : List String
  rows : List Row

/-- Python `int(x)` on a cell: identity on ints, truncation toward zero on
floats, string parse on strings (raising `ValueError` otherwise), and a
`ValueError` on NaN. -/
def pyToInt : Cell → Except String Int
  | Cell.cInt n => Except.ok n
  | Cell.cFloat q => Except.ok (pyInt q)
  | Cell.cStr s =>
    match pyStrToInt? s with
    | some n => Except.ok n
    | none => Except.error (("invalid literal for int() with base 10: ") ++ sq ++ s ++ sq)
  | Cell.cNaN => Except.error ("cannot convert float NaN to integer")

/-- Python `float(x)` on a cell.  `float(nan)` would be NaN, which has no
rational counterpart; NaN cells are treated as out of the model here (no
verified property feeds NaN to a float column). -/
def pyToFloat : Cell → Except String ℚ
  | Cell.cInt n => Except.ok (n : ℚ)
  | Cell.cFloat q => Except.ok q
  | Cell.cStr s =>
    match pyStrToFloat? s with
    | some q => Except.ok q
    | none => Except.error (("could not convert string to float: ") ++ sq ++ s ++ sq)
  | Cell.cNaN => Except.error ("float NaN is outside the rational model")

/-- Python `str(x)` on a cell.  (`str` of a float is not modelled
digit-for-digit; the verified properties only apply `str` to string
cells.) -/
def pyToStr : Cell → String
  | Cell.cStr s => s
  | Cell.cInt n => toString n
  | Cell.cFloat q => toString q
  | Cell.cNaN => "nan"

/-- `row[col]` on a pandas row: the cell, or a `KeyError`. -/
def rowGet (r : Row) (k : String) : Except String Cell :=
  match (r.find? (fun p => p.1 == k)).map (fun p => p.2) with
  | some cell => Except.ok cell
  | none => Except.error (("KeyError: ") ++ sq ++ k ++ sq)

/-- The per-row `campaign_data` dictionary construction of the bulk-upload
handler (lines 268-281 of the source), coercions evaluated in source order;
the first failing coercion raises.  `keywords` uses `row.get`, which never
raises: absent column or NaN becomes `None`. -/
def rowToCampaign (r : Row) (fid : String) (now : Int) : Except String CampaignData := do
  let cName := pyToStr (← rowGet r ("campaign_name"))
  let cPlatform := pyToStr (← rowGet r ("platform"))
  let cImpressions ← pyToInt (← rowGet r ("impressions"))
  let cClicks ← pyToInt (← rowGet r ("clicks"))
  let cConversions ← pyToInt (← rowGet r ("conversions"))
  let cSpend ← pyToFloat (← rowGet r ("spend"))
  let cRevenue ← pyToFloat (← rowGet r ("revenue"))
  let cTarget := pyToStr (← rowGet r ("target_audience"))
  let cCopy := pyToStr (← rowGet r ("ad_copy"))
  let cKeywords : Option String :=
    match (r.find? (fun p => p.1 == ("keywords"))).map (fun p => p.2) with
    | none => none
    | some Cell.cNaN => none
    | some cell => some (pyToStr cell)
  Except.ok { id := fid, campaign_name := cName, platform := cPlatform,
              impressions := cImpressions, clicks := cClicks,
              conversions := cConversions, spend := cSpend, revenue := cRevenue,
              target_audience := cTarget, ad_copy := cCopy,
              keywords := cKeywords, created_at := now }

/-- The body of the bulk-upload loop: insert row after row, stopping at the
first coercion failure; returns the campaign store after the loop, the
campaigns created, and the error message if a row failed. -/
def bulkLoop (fids : Nat → String) (now : Int) :
    List Row → Nat → List CampaignData → List CampaignData →
    List CampaignData × List CampaignData × Option String
  | [], _, store, acc => (store, acc, none)
  | r :: rest, i, store, acc =>
    match rowToCampaign r (fids i) now with
    | Except.ok d => bulkLoop fids now rest (i + 1) (store ++ [d]) (acc ++ [d])
    | Except.error msg => (store, acc, some msg)

/-- Successful bulk-upload response. -/
structure BulkOk where
  message : String
  campaigns : List CampaignData
deriving DecidableEq

/-- Python `str` of a list of strings, `repr`-quoting the elements, as in
`f"Missing required columns: \x7bmissing_columns\x7d"`. -/
def pyListRepr (xs : List String) : String :=
  ("[") ++ String.intercalate (", ") (xs.map (fun s => sq ++ s ++ sq)) ++ ("]")

/-- Python `filename.endswith(suffix)`, character-level suffix test. -/
def strEndsWith (s suffix : String) : Bool := suffix.data.isSuffixOf s.data

/-- The 9 required CSV columns, line 259 of the source. -/
def required_columns : List String :=
  [("campaign_name"), ("platform"), ("impressions"), ("clicks"), ("conversions"),
   ("spend"), ("revenue"), ("target_audience"), ("ad_copy")]

/-- The bulk-upload route handler.  The filename check happens before the
`try` block; the missing-columns `HTTPException` is raised inside it and is
therefore caught by the blanket `except` and re-wrapped with the
`"Error processing file: "` prefix around the exception's `str()` form.
Row coercion failures are wrapped the same way; campaigns inserted before
the failing row stay in the store. -/
def bulk_upload_campaigns (filename : String) (df : DataFrame)
    (store : List CampaignData) (fids : Nat → String) (now : Int) :
    Except HTTPException BulkOk × List CampaignData :=
  if !(strEndsWith filename (".csv")) then
    (Except.error { status_code := 400, detail := "File must be a CSV" }, store)
  else
    let missing := required_columns.filter (fun col => !(df.columns.contains col))
    if missing = [] then
      match bulkLoop fids now df.rows 0 store [] with
      | (store2, created, none) =>
        (Except.ok { message := ("Successfully uploaded ") ++ toString created.length ++
                       (" campaigns"),
                     campaigns := created }, store2)
      | (store2, _, some msg) =>
        (Except.error { status_code := 400,
                        detail := ("Error processing file: ") ++ msg }, store2)
    else
      (Except.error
        { status_code := 400,
          detail := ("Error processing file: ") ++
            httpExcStr { status_code := 400,
                         detail := ("Missing required columns: ") ++ pyListRepr missing } },
       store)

/-- The single-campaign creation handler: builds a `CampaignData` from the
request body with a fresh id and timestamp and inserts it. -/
def create_campaign (cc : CampaignCreate) (store : List CampaignData)
    (fid : String) (now : Int) : CampaignData × List CampaignData :=
  let obj : CampaignData :=
    { id := fid, campaign_name := cc.campaign_name, platform := cc.platform,
      impressions := cc.impressions, clicks := cc.clicks,
      conversions := cc.conversions, spend := cc.spend, revenue := cc.revenue,
      target_audience := cc.target_audience, ad_copy := cc.ad_copy,
      keywords := cc.keywords, created_at := now }
  (obj, store ++ [obj])

/-- A CSV row carrying the same field values as a creation request: text
fields as string cells, counters as integer cells, amounts as float cells;
the optional keywords column present exactly when the request has one. -/
def rowOfCreate (cc : CampaignCreate) : Row :=
  [(("campaign_name"), Cell.cStr cc.campaign_name),
   (("platform"), Cell.cStr cc.platform),
   (("impressions"), Cell.cInt cc.impressions),
   (("clicks"), Cell.cInt cc.clicks),
   (("conversions"), Cell.cInt cc.conversions),
   (("spend"), Cell.cFloat cc.spend),
   (("revenue"), Cell.cFloat cc.revenue),
   (("target_audience"), Cell.cStr cc.target_audience),
   (("ad_copy"), Cell.cStr cc.ad_copy)] ++
  (match cc.keywords with
   | none => []
   | some k => [(("keywords"), Cell.cStr k)])

/-- Structural identity of two stored campaigns up to id and creation
timestamp. -/
def eqExceptIdTime (a b : CampaignData) : Prop :=
  a.campaign_name = b.campaign_name ∧ a.platform = b.platform ∧
  a.impressions = b.impressions ∧ a.clicks = b.clicks ∧
  a.conversions = b.conversions ∧ a.spend = b.spend ∧ a.revenue = b.revenue ∧
  a.target_audience = b.target_audience ∧ a.ad_copy = b.ad_copy ∧
  a.keywords = b.keywords

/-- Concatenation of strings is associative (their character lists are). -/
theorem strAppendAssoc (a b c : String) : a ++ b ++ c = a ++ (b ++ c) :=
  String.ext (by simp)

/-- The 400 detail produced when the missing-columns `HTTPException` is
caught and re-wrapped by the bulk handler's blanket `except`, for any
rendered column list `d`. -/
theorem wrapMissingDetail (d : String) :
    ("Error processing file: ") ++
      httpExcStr { status_code := 400,
                   detail := ("Missing required columns: ") ++ d } =
    ("Error processing file: 400: Missing required columns: ") ++ d := by
  show ("Error processing file: ") ++
      ((toString (400 : Nat) ++ (": ")) ++ (("Missing required columns: ") ++ d)) =
    ("Error processing file: 400: Missing required columns: ") ++ d
  rw [← strAppendAssoc (toString (400 : Nat) ++ (": ")) ("Missing required columns: ") d]
  rw [← strAppendAssoc ("Error processing file: ")
        ((toString (400 : Nat) ++ (": ")) ++ ("Missing required columns: ")) d]
  rw [show ("Error processing file: ") ++
        ((toString (400 : Nat) ++ (": ")) ++ ("Missing required columns: ")) =
      ("Error processing file: 400: Missing required columns: ") from by decide]

/-- The eight required columns other than `spend` are present in a header
lacking only `spend`. -/
def dfNoSpend : DataFrame :=
  { columns := [("campaign_name"), ("platform"), ("impressions"), ("clicks"),
                ("conversions"), ("revenue"), ("target_audience"), ("ad_copy")],
    rows := [] }

/-- C6: for every CSV header lacking one or more of the 9 required columns,
bulk upload fails with a 400 error whose detail renders exactly the list of
missing columns (the missing-columns exception is wrapped by the handler's
blanket `except`), and the campaign store is unchanged: zero campaigns are
created.  The rendered list contains a column iff it is required and absent
from the header; when only `spend` is missing the list is exactly
`[spend]`. -/
theorem bulk_missing_columns_error
    (filename : String) (df : DataFrame) (store : List CampaignData)
    (fids : Nat → String) (now : Int)
    (hcsv : strEndsWith filename (".csv") = true)
    (hne : required_columns.filter (fun col => !(df.columns.contains col)) ≠ []) :
    bulk_upload_campaigns filename df store fids now =
      (Except.error
        { status_code := 400,
          detail := ("Error processing file: 400: Missing required columns: ") ++
            pyListRepr (required_columns.filter (fun col => !(df.columns.contains col))) },
       store) ∧
    (∀ col : String,
      col ∈ required_columns.filter (fun col => !(df.columns.contains col)) ↔
        (col ∈ required_columns ∧ ¬ col ∈ df.columns)) ∧
    (df.columns.contains ("spend") = false →
      (∀ col ∈ required_columns, col ≠ ("spend") → df.columns.contains col = true) →
      required_columns.filter (fun col => !(df.columns.contains col)) = [("spend")]) := by
  refine ⟨?_, ?_, ?_⟩
  · rw [← wrapMissingDetail
      (pyListRepr (required_columns.filter (fun col => !(df.columns.contains col))))]
    simp only [bulk_upload_campaigns, hcsv, Bool.not_true, Bool.false_eq_true, if_false]
    rw [if_neg hne]
  · intro col
    simp [List.mem_filter]
  · intro hsp hrest
    have h1 : ("campaign_name" : String) ∈ df.columns := by
      simpa using hrest ("campaign_name") (by decide) (by decide)
    have h2 : ("platform" : String) ∈ df.columns := by
      simpa using hrest ("platform") (by decide) (by decide)
    have h3 : ("impressions" : String) ∈ df.columns := by
      simpa using hrest ("impressions") (by decide) (by decide)
    have h4 : ("clicks" : String) ∈ df.columns := by
      simpa using hrest ("clicks") (by decide) (by decide)
    have h5 : ("conversions" : String) ∈ df.columns := by
      simpa using hrest ("conversions") (by decide) (by decide)
    have h6 : ("revenue" : String) ∈ df.columns := by
      simpa using hrest ("revenue") (by decide) (by decide)
    have h7 : ("target_audience" : String) ∈ df.columns := by
      simpa using hrest ("target_audience") (by decide) (by decide)
    have h8 : ("ad_copy" : String) ∈ df.columns := by
      simpa using hrest ("ad_copy") (by decide) (by decide)
    have hsp2 : ¬ (("spend" : String) ∈ df.columns) := by simpa using hsp
    simp [required_columns, h1, h2, h3, h4, h5, h6, h7, h8, hsp2]

/-- C6 witness: a header carrying the 8 other required columns and no
`spend`; the rendered missing list is exactly `[spend]`. -/
theorem bulk_missing_columns_error_witness :
    (strEndsWith ("data.csv") (".csv") = true ∧
     required_columns.filter (fun col => !(dfNoSpend.columns.contains col)) ≠ []) ∧
    (bulk_upload_campaigns ("data.csv") dfNoSpend [] (fun _ => ("gid")) 0 =
      (Except.error
        { status_code := 400,
          detail := ("Error processing file: 400: Missing required columns: ") ++
            pyListRepr (required_columns.filter (fun col => !(dfNoSpend.columns.contains col))) },
       []) ∧
     (∀ col : String,
       col ∈ required_columns.filter (fun col => !(dfNoSpend.columns.contains col)) ↔
         (col ∈ required_columns ∧ ¬ col ∈ dfNoSpend.columns)) ∧
     (dfNoSpend.columns.contains ("spend") = false →
       (∀ col ∈ required_columns, col ≠ ("spend") → dfNoSpend.columns.contains col = true) →
       required_columns.filter (fun col => !(dfNoSpend.columns.contains col)) = [("spend")])) ∧
    pyListRepr (required_columns.filter (fun col => !(dfNoSpend.columns.contains col))) =
      ("[") ++ sq ++ ("spend") ++ sq ++ ("]") :=
  ⟨⟨by decide, by decide⟩,
   bulk_missing_columns_error ("data.csv") dfNoSpend [] (fun _ => ("gid")) 0
     (by decide) (by decide),
   by decide⟩

/-- C7: a campaign created by single submission and one created from a bulk
CSV row carrying the same values are structurally identical except for id
and creation timestamp (which are the respective fresh values); the single
path also appends its record to the store. -/
theorem single_vs_bulk_roundtrip (cc : CampaignCreate) (store : List CampaignData)
    (fid1 fid2 : String) (t1 t2 : Int) :
    (create_campaign cc store fid1 t1).2 = store ++ [(create_campaign cc store fid1 t1).1] ∧
    (create_campaign cc store fid1 t1).1.id = fid1 ∧
    (create_campaign cc store fid1 t1).1.created_at = t1 ∧
    ∃ d : CampaignData,
      rowToCampaign (rowOfCreate cc) fid2 t2 = Except.ok d ∧
      eqExceptIdTime (create_campaign cc store fid1 t1).1 d ∧
      d.id = fid2 ∧ d.created_at = t2 := by
  refine ⟨rfl, rfl, rfl, ?_⟩
  cases hk : cc.keywords with
  | none =>
    refine ⟨{ id := fid2, campaign_name := cc.campaign_name, platform := cc.platform,
              impressions := cc.impressions, clicks := cc.clicks,
              conversions := cc.conversions, spend := cc.spend, revenue := cc.revenue,
              target_audience := cc.target_audience, ad_copy := cc.ad_copy,
              keywords := none, created_at := t2 }, ?_, ?_, rfl, rfl⟩
    · unfold rowOfCreate
      rw [hk]
      rfl
    · exact ⟨rfl, rfl, rfl, rfl, rfl, rfl, rfl, rfl, rfl, hk⟩
  | some k =>
    refine ⟨{ id := fid2, campaign_name := cc.campaign_name, platform := cc.platform,
              impressions := cc.impressions, clicks := cc.clicks,
              conversions := cc.conversions, spend := cc.spend, revenue := cc.revenue,
              target_audience := cc.target_audience, ad_copy := cc.ad_copy,
              keywords := some k, created_at := t2 }, ?_, ?_, rfl, rfl⟩
    · unfold rowOfCreate
      rw [hk]
      rfl
    · exact ⟨rfl, rfl, rfl, rfl, rfl, rfl, rfl, rfl, rfl, hk⟩

/-- The rows up to (not including) the failing one all coerce, producing the
given campaigns in order, with per-row fresh ids starting at index `i`. -/
def RowsCoerce (fids : Nat → String) (now : Int) :
    List Row → Nat → List CampaignData → Prop
  | [], _, created => created = []
  | r :: rest, i, created =>
    match created with
    | [] => False
    | d :: created2 =>
      rowToCampaign r (fids i) now = Except.ok d ∧ RowsCoerce fids now rest (i + 1) created2

/-- Unrolling of the bulk loop over a prefix of coercible rows followed by a
failing row: the loop stops at the failure with the prefix already
inserted. -/
theorem bulkLoop_partial (fids : Nat → String) (now : Int) (r : Row)
    (rest : List Row) (msg : String) :
    ∀ (gs : List Row) (i : Nat) (store acc created : List CampaignData),
      RowsCoerce fids now gs i created →
      rowToCampaign r (fids (i + gs.length)) now = Except.error msg →
      bulkLoop fids now (gs ++ r :: rest) i store acc =
        (store ++ created, acc ++ created, some msg) := by
  intro gs
  induction gs with
  | nil =>
    intro i store acc created hok hbad
    have hc : created = [] := hok
    subst hc
    simp only [List.length_nil, Nat.add_zero] at hbad
    simp only [List.nil_append, List.append_nil]
    unfold bulkLoop
    rw [hbad]
  | cons g gs2 ih =>
    intro i store acc created hok hbad
    cases created with
    | nil =>
      simp only [RowsCoerce] at hok
    | cons d created2 =>
      simp only [RowsCoerce] at hok
      obtain ⟨hg, hrest2⟩ := hok
      have hbad2 : rowToCampaign r (fids ((i + 1) + gs2.length)) now = Except.error msg := by
        have : (i + 1) + gs2.length = i + (g :: gs2).length := by
          simp [List.length_cons]
          omega
        rw [this]
        exact hbad
      have hstep := ih (i + 1) (store ++ [d]) (acc ++ [d]) created2 hrest2 hbad2
      show bulkLoop fids now (g :: (gs2 ++ r :: rest)) i store acc = _
      simp only [bulkLoop, hg]
      rw [hstep]
      simp

/-- C10: bulk upload is not atomic over rows.  If the header passes the
column check, the first `k` rows coerce (producing `created`), and row
`k` fails to coerce, the upload returns a 400 error wrapping the coercion
message — yet the campaigns created from the earlier rows remain in the
store. -/
theorem bulk_partial_persistence
    (filename : String) (df : DataFrame) (store created : List CampaignData)
    (fids : Nat → String) (now : Int) (goodRows : List Row) (r : Row)
    (rest : List Row) (msg : String)
    (hcsv : strEndsWith filename (".csv") = true)
    (hcols : required_columns.filter (fun col => !(df.columns.contains col)) = [])
    (hrows : df.rows = goodRows ++ r :: rest)
    (hgood : RowsCoerce fids now goodRows 0 created)
    (hbad : rowToCampaign r (fids goodRows.length) now = Except.error msg) :
    bulk_upload_campaigns filename df store fids now =
      (Except.error { status_code := 400, detail := ("Error processing file: ") ++ msg },
       store ++ created) := by
  have hbad0 : rowToCampaign r (fids (0 + goodRows.length)) now = Except.error msg := by
    simpa using hbad
  have hloop := bulkLoop_partial fids now r rest msg goodRows 0 store [] created hgood hbad0
  simp only [bulk_upload_campaigns, hcsv, Bool.not_true, hcols, hrows, hloop]
  simp

/-- A coercible CSV row. -/
def goodRow : Row :=
  [(("campaign_name"), Cell.cStr ("Good")), (("platform"), Cell.cStr ("Google")),
   (("impressions"), Cell.cInt 100), (("clicks"), Cell.cInt 10),
   (("conversions"), Cell.cInt 1), (("spend"), Cell.cFloat 50),
   (("revenue"), Cell.cFloat 80), (("target_audience"), Cell.cStr ("aud")),
   (("ad_copy"), Cell.cStr ("copy"))]

/-- A row whose `impressions` cell is the non-numeric string `abc`. -/
def badRow : Row :=
  [(("campaign_name"), Cell.cStr ("Bad")), (("platform"), Cell.cStr ("Google")),
   (("impressions"), Cell.cStr ("abc")), (("clicks"), Cell.cInt 10),
   (("conversions"), Cell.cInt 1), (("spend"), Cell.cFloat 50),
   (("revenue"), Cell.cFloat 80), (("target_audience"), Cell.cStr ("aud")),
   (("ad_copy"), Cell.cStr ("copy"))]

/-- The campaign created from `goodRow` with id `0` and timestamp 7. -/
def goodCampaign : CampaignData :=
  { id := "0", campaign_name := "Good", platform := "Google",
    impressions := 100, clicks := 10, conversions := 1, spend := 50,
    revenue := 80, target_audience := "aud", ad_copy := "copy",
    keywords := none, created_at := 7 }

/-- C10 witness: a two-row CSV whose second row fails on `int("abc")`; the
first row's campaign stays persisted. -/
theorem bulk_partial_persistence_witness :
    (strEndsWith ("two.csv") (".csv") = true ∧
     required_columns.filter
       (fun col => !((DataFrame.mk required_columns [goodRow, badRow]).columns.contains col)) = [] ∧
     (DataFrame.mk required_columns [goodRow, badRow]).rows = [goodRow] ++ badRow :: [] ∧
     RowsCoerce (fun i => toString i) 7 [goodRow] 0 [goodCampaign] ∧
     rowToCampaign badRow (toString ([goodRow] : List Row).length) 7 =
       Except.error (("invalid literal for int() with base 10: ") ++ sq ++ ("abc") ++ sq)) ∧
    bulk_upload_campaigns ("two.csv") (DataFrame.mk required_columns [goodRow, badRow])
      [] (fun i => toString i) 7 =
      (Except.error
        { status_code := 400,
          detail := ("Error processing file: ") ++
            (("invalid literal for int() with base 10: ") ++ sq ++ ("abc") ++ sq) },
       [] ++ [goodCampaign]) :=
  ⟨⟨by decide, by decide, rfl, ⟨rfl, rfl⟩, rfl⟩,
   bulk_partial_persistence ("two.csv") (DataFrame.mk required_columns [goodRow, badRow])
     [] [goodCampaign] (fun i => toString i) 7 [goodRow] badRow [] _
     (by decide) (by decide) rfl ⟨rfl, rfl⟩ rfl⟩

/-- The dashboard summary response record. -/
structure DashboardSummary where
  total_campaigns : Nat
  total_spend : ℚ
  total_revenue : ℚ
  avg_roi : ℚ
  total_analyses : Nat
  avg_score : ℚ
deriving DecidableEq

/-- Sum of the stored campaigns' spend. -/
def totalSpend (cs : List CampaignData) : ℚ := (cs.map (fun c => c.spend)).sum

/-- Sum of the stored campaigns' revenue. -/
def totalRevenue (cs : List CampaignData) : ℚ := (cs.map (fun c => c.revenue)).sum

/-- The dashboard-summary handler (lines 320-345 of the source): all-zero
record when there are no campaigns, otherwise counts, totals, aggregate ROI
from the totals, and the mean stored score. -/
def get_dashboard_summary (campaigns : List CampaignData) (analyses : List AIAnalysis) :
    DashboardSummary :=
  if campaigns.isEmpty then
    { total_campaigns := 0, total_spend := 0, total_revenue := 0,
      avg_roi := 0, total_analyses := 0, avg_score := 0 }
  else
    { total_campaigns := campaigns.length,
      total_spend := totalSpend campaigns,
      total_revenue := totalRevenue campaigns,
      avg_roi :=
        if 0 < totalSpend campaigns then
          (totalRevenue campaigns - totalSpend campaigns) / totalSpend campaigns * 100
        else 0,
      total_analyses := analyses.length,
      avg_score :=
        if analyses.isEmpty then 0
        else ((analyses.map (fun a => (a.overall_score : ℚ))).sum) / (analyses.length : ℚ) }

/-- Modelled from the spec's words, for comparison only: the average of the
per-campaign ROIs — the quantity `avg_roi` is NOT. -/
def meanPerCampaignRoi (cs : List CampaignData) : ℚ :=
  ((cs.map roi).sum) / (cs.length : ℚ)

/-- A campaign with spend 1 and revenue 2 (per-campaign ROI 100). -/
def dashA : CampaignData :=
  { id := "dA", campaign_name := "A", platform := "X", impressions := 1,
    clicks := 1, conversions := 1, spend := 1, revenue := 2,
    target_audience := "a", ad_copy := "b", keywords := none, created_at := 0 }

/-- A campaign with spend 100 and revenue 100 (per-campaign ROI 0). -/
def dashB : CampaignData :=
  { id := "dB", campaign_name := "B", platform := "X", impressions := 1,
    clicks := 1, conversions := 1, spend := 100, revenue := 100,
    target_audience := "a", ad_copy := "b", keywords := none, created_at := 0 }

/-- C8: with zero campaigns the dashboard summary is the all-zero record
(total function, so no division-by-zero error), whatever the analyses
store holds; with campaigns present, `avg_roi` is the aggregate ROI
computed from the totals of spend and revenue — and it genuinely differs
from the average of per-campaign ROIs (witnessed by a two-campaign
store). -/
theorem dashboard_summary_aggregates
    (cs : List CampaignData) (ans : List AIAnalysis) (h : cs ≠ []) :
    (∀ ans0 : List AIAnalysis,
      get_dashboard_summary [] ans0 =
        { total_campaigns := 0, total_spend := 0, total_revenue := 0,
          avg_roi := 0, total_analyses := 0, avg_score := 0 }) ∧
    (get_dashboard_summary cs ans).avg_roi =
      (if 0 < totalSpend cs then
        (totalRevenue cs - totalSpend cs) / totalSpend cs * 100
      else 0) ∧
    (∃ cs2 : List CampaignData, cs2 ≠ [] ∧
      (get_dashboard_summary cs2 []).avg_roi ≠ meanPerCampaignRoi cs2) := by
  refine ⟨fun ans0 => rfl, ?_, ?_⟩
  · cases cs with
    | nil => exact absurd rfl h
    | cons a l => rfl
  · refine ⟨[dashA, dashB], by simp, ?_⟩
    have hagg : (get_dashboard_summary [dashA, dashB] []).avg_roi = 100 / 101 := by
      have hts : totalSpend [dashA, dashB] = 101 := by
        norm_num [totalSpend, dashA, dashB]
      have htr : totalRevenue [dashA, dashB] = 102 := by
        norm_num [totalRevenue, dashA, dashB]
      simp only [get_dashboard_summary, List.isEmpty, hts, htr]
      norm_num
    have hmean : meanPerCampaignRoi [dashA, dashB] = 50 := by
      have ha : roi dashA = 100 := by norm_num [roi, dashA]
      have hb : roi dashB = 0 := by norm_num [roi, dashB]
      simp only [meanPerCampaignRoi, List.map, ha, hb]
      norm_num
    rw [hagg, hmean]
    norm_num

/-- C8 witness: the nonempty-store case at a singleton store. -/
theorem dashboard_summary_aggregates_witness :
    ([sampleCampaign] ≠ ([] : List CampaignData)) ∧
    ((∀ ans0 : List AIAnalysis,
      get_dashboard_summary [] ans0 =
        { total_campaigns := 0, total_spend := 0, total_revenue := 0,
          avg_roi := 0, total_analyses := 0, avg_score := 0 }) ∧
    (get_dashboard_summary [sampleCampaign] []).avg_roi =
      (if 0 < totalSpend [sampleCampaign] then
        (totalRevenue [sampleCampaign] - totalSpend [sampleCampaign]) /
          totalSpend [sampleCampaign] * 100
      else 0) ∧
    (∃ cs2 : List CampaignData, cs2 ≠ [] ∧
      (get_dashboard_summary cs2 []).avg_roi ≠ meanPerCampaignRoi cs2)) :=
  ⟨by simp, dashboard_summary_aggregates [sampleCampaign] [] (by simp)⟩

end AdSpendWise
